import Mathlib

/-!
Verification of the fusion-kbd-controller protocol core (src/kbd.rs).

Shallow embedding conventions:
* Machine bytes (`u8`) are modelled as `Nat`; wrapping arithmetic is made
  explicit with `% 256`, and bitwise complement `!x` on a `u8` value
  `x < 256` is `255 - x`.
* The libusb transport is modelled as an oracle environment (`UsbEnv`)
  that decides the result of each transport call; every session operation
  is a pure function from the environment and its arguments to the list
  of USB operations it issues (`UsbEvent`) plus an outcome (`R`):
  normal return, propagated `libusb::Error`, or a Rust panic
  (`assert!` failure, `.unwrap()` on `Err`, or out-of-bounds slice).
* `Duration::new(0, 0)` (libusb's encoding of an unbounded timeout) is
  modelled as the timeout value `0` carried in each transfer event.
-/

/-- Model of the `libusb::Error` enumeration (the variants this program
can produce or that the spec's error taxonomy distinguishes). -/
inductive LibusbError where
  | io
  | access
  | noDevice
  | busy
  | timeout
  | other
  deriving Repr, DecidableEq

/-- Outcome of running a session operation: normal return value,
propagated `libusb::Error`, or a Rust panic. -/
inductive R (α : Type) where
  | ok (a : α)
  | err (e : LibusbError)
  | panicked
  deriving Repr, DecidableEq

/-- Model of `libusb::Direction`. -/
inductive Direction where
  | out
  | inn
  deriving Repr, DecidableEq

/-- Model of `libusb::RequestType` (`cls` stands for the `Class` variant,
which cannot be named literally in Lean). -/
inductive RequestType where
  | standard
  | cls
  | vendor
  deriving Repr, DecidableEq

/-- Model of `libusb::Recipient`. -/
inductive Recipient where
  | device
  | interface
  | endpoint
  deriving Repr, DecidableEq

/-- Model of `libusb::request_type`: builds the `bmRequestType` byte from
direction, request type and recipient, as the libusb crate does. -/
def request_type (d : Direction) (t : RequestType) (r : Recipient) : Nat :=
  (match d with
    | Direction.out => 0x00
    | Direction.inn => 0x80) +
  (match t with
    | RequestType.standard => 0x00
    | RequestType.cls => 0x20
    | RequestType.vendor => 0x40) +
  (match r with
    | Recipient.device => 0x00
    | Recipient.interface => 0x01
    | Recipient.endpoint => 0x02)

/-- The 8-byte command header of `src/kbd.rs` (struct `Header`),
fields in declaration order; each field holds one byte. -/
structure Header where
  kind : Nat
  reserved : Nat
  mode : Nat
  speed_length : Nat
  brightness : Nat
  color : Nat
  reserved2 : Nat
  checksum : Nat
  deriving Repr, DecidableEq

namespace Header

/-- Model of `Header::as_bytes`: the wire representation is the in-memory
field order, 8 bytes. -/
def as_bytes (h : Header) : List Nat :=
  [h.kind, h.reserved, h.mode, h.speed_length, h.brightness, h.color,
   h.reserved2, h.checksum]

/-- One step of `u8::wrapping_add` as used in the checksum fold. -/
def wrapping_add (s x : Nat) : Nat := (s + x) % 256

/-- Model of `Header::new`: zero reserved bytes, checksum is the bitwise
complement (`255 - x` on a byte) of the wrapping sum of the first 7 bytes. -/
def new (kind mode speed_length brightness color : Nat) : Header :=
  let h : Header :=
    { kind := kind, mode := mode, speed_length := speed_length,
      brightness := brightness, color := color,
      reserved := 0, reserved2 := 0, checksum := 0 }
  { h with checksum := 255 - (h.as_bytes.take 7).foldl wrapping_add 0 }

end Header

/-- `KIND_PRESET` constant from `src/kbd.rs`. -/
def KIND_PRESET : Nat := 0x08

/-- `KIND_CUSTOM_CONFIG` constant from `src/kbd.rs`. -/
def KIND_CUSTOM_CONFIG : Nat := 0x12

/-- The `Preset` enumeration of `src/kbd.rs`. -/
inductive Preset where
  | staticP
  | breathing
  | wave
  | fadeOnKeypress
  | marquee
  | ripple
  | flashOnKeypress
  | neon
  | rainbowMarquee
  | raindrop
  | circleMarquee
  | hedge
  | rotate
  deriving Repr, DecidableEq

/-- The discriminant value of each `Preset` variant (`preset as u8`). -/
def Preset.toCode : Preset → Nat
  | Preset.staticP => 0x01
  | Preset.breathing => 0x02
  | Preset.wave => 0x03
  | Preset.fadeOnKeypress => 0x04
  | Preset.marquee => 0x05
  | Preset.ripple => 0x06
  | Preset.flashOnKeypress => 0x07
  | Preset.neon => 0x08
  | Preset.rainbowMarquee => 0x09
  | Preset.raindrop => 0x0a
  | Preset.circleMarquee => 0x0b
  | Preset.hedge => 0x0c
  | Preset.rotate => 0x0d

/-- The `Color` enumeration of `src/kbd.rs`. -/
inductive Color where
  | rand
  | red
  | green
  | yellow
  | blue
  | orange
  | purple
  | white
  deriving Repr, DecidableEq

/-- The discriminant value of each `Color` variant (`color as u8`). -/
def Color.toCode : Color → Nat
  | Color.rand => 0x00
  | Color.red => 0x01
  | Color.green => 0x02
  | Color.yellow => 0x03
  | Color.blue => 0x04
  | Color.orange => 0x05
  | Color.purple => 0x06
  | Color.white => 0x07

/-- A USB operation issued by the session against the transport layer,
in the order the code performs them. Transfer events record the exact
arguments passed to libusb (payload bytes, timeout value). -/
inductive UsbEvent where
  | kernelDriverActiveQuery (iface : Nat)
  | detachKernelDriver (iface : Nat)
  | attachKernelDriver (iface : Nat)
  | claimInterface (iface : Nat)
  | releaseInterface (iface : Nat)
  | controlTransfer (requestType : Nat) (request : Nat) (value : Nat)
      (index : Nat) (payload : List Nat) (timeout : Nat)
  | interruptTransfer (endpoint : Nat) (payload : List Nat) (timeout : Nat)
  deriving Repr, DecidableEq

/-- Oracle for the transport layer: decides the result of each libusb
call the program makes. `writeInterrupt` is indexed by the chunk number
within one `upload_custom` call and yields the transferred length. -/
structure UsbEnv where
  deviceFound : Bool
  kernelDriverActive : Nat → Except LibusbError Bool
  detachKernelDriver : Nat → Except LibusbError Unit
  claimInterface : Nat → Except LibusbError Unit
  writeControl : Except LibusbError Nat
  writeInterrupt : Nat → Except LibusbError Nat

namespace FusionKBD

/-- The events of `FusionKBD::new` after interface 0 has been handled:
claim interface 0, then interface 3; a failed claim propagates via `?`. -/
def new_claims (env : UsbEnv) (pre : List UsbEvent) : List UsbEvent × R Unit :=
  match env.claimInterface 0 with
  | Except.error e => (pre ++ [UsbEvent.claimInterface 0], R.err e)
  | Except.ok _ =>
    match env.claimInterface 3 with
    | Except.error e =>
        (pre ++ [UsbEvent.claimInterface 0, UsbEvent.claimInterface 3], R.err e)
    | Except.ok _ =>
        (pre ++ [UsbEvent.claimInterface 0, UsbEvent.claimInterface 3], R.ok ())

/-- The events of `FusionKBD::new` for interface 3: `.unwrap()` on the
kernel-driver-active query (panics on a transport error), detach if
active (`?` on failure), then the claims. -/
def new_iface3 (env : UsbEnv) (pre : List UsbEvent) : List UsbEvent × R Unit :=
  match env.kernelDriverActive 3 with
  | Except.error _ => (pre ++ [UsbEvent.kernelDriverActiveQuery 3], R.panicked)
  | Except.ok true =>
    match env.detachKernelDriver 3 with
    | Except.error e =>
        (pre ++ [UsbEvent.kernelDriverActiveQuery 3, UsbEvent.detachKernelDriver 3],
         R.err e)
    | Except.ok _ =>
        new_claims env
          (pre ++ [UsbEvent.kernelDriverActiveQuery 3, UsbEvent.detachKernelDriver 3])
  | Except.ok false =>
      new_claims env (pre ++ [UsbEvent.kernelDriverActiveQuery 3])

/-- Model of `FusionKBD::new`: open by vid/pid 0x1044/0x7a39 (returning
`Err(libusb::Error::Access)` when no device is found), then for each of
interface 0 and interface 3 query the kernel driver with `.unwrap()`,
detach it if active, and finally claim both interfaces. -/
def new (env : UsbEnv) : List UsbEvent × R Unit :=
  if env.deviceFound then
    match env.kernelDriverActive 0 with
    | Except.error _ => ([UsbEvent.kernelDriverActiveQuery 0], R.panicked)
    | Except.ok true =>
      match env.detachKernelDriver 0 with
      | Except.error e =>
          ([UsbEvent.kernelDriverActiveQuery 0, UsbEvent.detachKernelDriver 0],
           R.err e)
      | Except.ok _ =>
          new_iface3 env
            [UsbEvent.kernelDriverActiveQuery 0, UsbEvent.detachKernelDriver 0]
    | Except.ok false =>
        new_iface3 env [UsbEvent.kernelDriverActiveQuery 0]
  else ([], R.err LibusbError.access)

/-- The control transfer issued by `FusionKBD::write_control_kbd`:
host-to-device, class, interface-recipient request type; bRequest 0x09,
wValue 0x0300, wIndex 0x0003, the 8 header bytes, zero timeout. -/
def write_control_kbd (h : Header) : UsbEvent :=
  UsbEvent.controlTransfer
    (request_type Direction.out RequestType.cls Recipient.interface)
    0x09 0x0300 0x0003 h.as_bytes 0

/-- Model of `FusionKBD::set_preset`: build a preset header and issue a
single control transfer carrying it. -/
def set_preset (env : UsbEnv) (preset : Preset) (speed brightness : Nat)
    (color : Color) : List UsbEvent × R Unit :=
  let header := Header.new KIND_PRESET preset.toCode speed brightness color.toCode
  match env.writeControl with
  | Except.error e => ([write_control_kbd header], R.err e)
  | Except.ok _ => ([write_control_kbd header], R.ok ())

/-- Model of `FusionKBD::set_custom`: `assert!(slot < 5)` (panic when it
fails), then one control transfer with header mode `0x33 + slot`. -/
def set_custom (env : UsbEnv) (slot brightness : Nat) : List UsbEvent × R Unit :=
  if slot < 5 then
    let header := Header.new KIND_PRESET (0x33 + slot) 0 brightness 0
    match env.writeControl with
    | Except.error e => ([write_control_kbd header], R.err e)
    | Except.ok _ => ([write_control_kbd header], R.ok ())
  else ([], R.panicked)

/-- Result of `upload_custom`: the events issued, the chunk indices for
which a short-transfer warning was printed, and the outcome. -/
structure UploadResult where
  events : List UsbEvent
  warnings : List Nat
  outcome : R Unit
  deriving Repr, DecidableEq

/-- The interrupt-transfer loop of `FusionKBD::upload_custom`, starting
at chunk index `i` with `fuel` iterations left. Each iteration slices
`data[64*i .. 64*i+64]` (a Rust panic when the slice is out of bounds),
issues the interrupt transfer to endpoint 6 (propagating a transport
error via `?`), and warns when the transferred length is not 64. -/
def upload_chunks (env : UsbEnv) (data : List Nat) : Nat → Nat → UploadResult
  | _, 0 => ⟨[], [], R.ok ()⟩
  | i, fuel + 1 =>
    if i * 64 + 64 ≤ data.length then
      let chunk := (data.drop (i * 64)).take 64
      let ev := UsbEvent.interruptTransfer 6 chunk 0
      match env.writeInterrupt i with
      | Except.error e => ⟨[ev], [], R.err e⟩
      | Except.ok tf =>
        let rest := upload_chunks env data (i + 1) fuel
        ⟨ev :: rest.events,
         (if tf ≠ 64 then [i] else []) ++ rest.warnings,
         rest.outcome⟩
    else ⟨[], [], R.panicked⟩

/-- Model of `FusionKBD::upload_custom`: `assert!(slot < 5)`, one control
transfer with the custom-config header, then 8 interrupt transfers of
64-byte chunks of `data`. -/
def upload_custom (env : UsbEnv) (slot : Nat) (data : List Nat) : UploadResult :=
  if slot < 5 then
    let header := Header.new KIND_CUSTOM_CONFIG slot 0x08 0x00 0x00
    match env.writeControl with
    | Except.error e => ⟨[write_control_kbd header], [], R.err e⟩
    | Except.ok _ =>
      let rest := upload_chunks env data 0 8
      ⟨write_control_kbd header :: rest.events, rest.warnings, rest.outcome⟩
  else ⟨[], [], R.panicked⟩

end FusionKBD

/-! Concrete transport environments used by witnesses and counterexamples. -/

/-- Environment in which every transport call succeeds and every interrupt
transfer reports the full 64 bytes. -/
def envAllOk : UsbEnv :=
  { deviceFound := true,
    kernelDriverActive := fun _ => Except.ok true,
    detachKernelDriver := fun _ => Except.ok (),
    claimInterface := fun _ => Except.ok (),
    writeControl := Except.ok 8,
    writeInterrupt := fun _ => Except.ok 64 }

/-- Environment in which interrupt transfer number 3 completes short
(10 of 64 bytes) and every other transport call fully succeeds. -/
def envShort : UsbEnv :=
  { envAllOk with
    writeInterrupt := fun i => if i = 3 then Except.ok 10 else Except.ok 64 }

/-- Environment in which no device with vid 0x1044 / pid 0x7a39 is present. -/
def envNoDevice : UsbEnv :=
  { deviceFound := false,
    kernelDriverActive := fun _ => Except.error LibusbError.other,
    detachKernelDriver := fun _ => Except.error LibusbError.other,
    claimInterface := fun _ => Except.error LibusbError.other,
    writeControl := Except.error LibusbError.other,
    writeInterrupt := fun _ => Except.error LibusbError.other }

/-- Environment in which no kernel driver is active, claiming interface 0
succeeds, and claiming interface 3 fails with `Busy`. -/
def envClaim3Fails : UsbEnv :=
  { deviceFound := true,
    kernelDriverActive := fun _ => Except.ok false,
    detachKernelDriver := fun _ => Except.ok (),
    claimInterface := fun i => if i = 3 then Except.error LibusbError.busy else Except.ok (),
    writeControl := Except.ok 8,
    writeInterrupt := fun _ => Except.ok 64 }

/-- Environment in which the kernel-driver-active query itself fails. -/
def envQueryFails : UsbEnv :=
  { envAllOk with kernelDriverActive := fun _ => Except.error LibusbError.io }

/-- C1: for every choice of the header bytes, the checksum computed by
`Header::new` equals `0xFF - (sum of the first 7 bytes mod 256)`, and the
sum of all 8 bytes of the built header is `0xFF` mod 256. -/
theorem C1_header_checksum (kind mode speed_length brightness color : Nat) :
    (Header.new kind mode speed_length brightness color).checksum =
      0xFF - (((Header.new kind mode speed_length brightness color).as_bytes.take 7).sum % 256) ∧
    (Header.new kind mode speed_length brightness color).as_bytes.sum % 256 = 0xFF := by
  simp only [Header.new, Header.as_bytes, Header.wrapping_add, List.take,
    List.foldl, List.sum_cons, List.sum_nil]
  constructor <;> omega

/-- C3: building a header with kind 0x08, mode 0x01, speed 0x05,
brightness 0x32, color 0x02 serializes to exactly
`[0x08, 0x00, 0x01, 0x05, 0x32, 0x02, 0x00, 0xBD]`. -/
theorem C3_example_header :
    (Header.new 0x08 0x01 0x05 0x32 0x02).as_bytes =
      [0x08, 0x00, 0x01, 0x05, 0x32, 0x02, 0x00, 0xBD] := by
  decide

/-- C4: `set_preset` issues exactly one control transfer: class-scoped,
interface-recipient, host-to-device (`bmRequestType` 0x21), request 0x09,
value 0x0300, index 0x0003, carrying the 8 serialized bytes of the header
built with kind `KIND_PRESET` (0x08), mode = preset code, speed, brightness
and color code, with timeout 0 (no timeout); no other event is issued. -/
theorem C4_set_preset_single_transfer (env : UsbEnv) (preset : Preset)
    (speed brightness : Nat) (color : Color) :
    (FusionKBD.set_preset env preset speed brightness color).1 =
      [UsbEvent.controlTransfer 0x21 0x09 0x0300 0x0003
        (Header.new KIND_PRESET preset.toCode speed brightness color.toCode).as_bytes 0] ∧
    request_type Direction.out RequestType.cls Recipient.interface = 0x21 ∧
    KIND_PRESET = 0x08 ∧
    (Header.new KIND_PRESET preset.toCode speed brightness color.toCode).as_bytes.length = 8 := by
  refine ⟨?_, rfl, rfl, rfl⟩
  unfold FusionKBD.set_preset FusionKBD.write_control_kbd
  cases env.writeControl <;> rfl

/-- C5: for slot ≥ 5 both `upload_custom` and `set_custom` panic on the
`assert!(slot < 5)` before issuing any event; for slot < 5 the assertion
passes and the first event issued is the header control transfer. -/
theorem C5_slot_guard (env : UsbEnv) (slot brightness : Nat) (data : List Nat) :
    (5 ≤ slot →
      FusionKBD.upload_custom env slot data = ⟨[], [], R.panicked⟩ ∧
      FusionKBD.set_custom env slot brightness = ([], R.panicked)) ∧
    (slot < 5 →
      (FusionKBD.upload_custom env slot data).events.head? =
        some (FusionKBD.write_control_kbd (Header.new KIND_CUSTOM_CONFIG slot 0x08 0x00 0x00)) ∧
      (FusionKBD.set_custom env slot brightness).1.head? =
        some (FusionKBD.write_control_kbd (Header.new KIND_PRESET (0x33 + slot) 0 brightness 0))) := by
  constructor
  · intro h5
    have hlt : ¬ slot < 5 := by omega
    unfold FusionKBD.upload_custom FusionKBD.set_custom
    simp [hlt]
  · intro h5
    unfold FusionKBD.upload_custom FusionKBD.set_custom
    cases env.writeControl <;> simp [h5]

/-- C5 witness: slot 7 is rejected with no event; slot 2 passes the
assertion and the header transfer is issued. -/
theorem C5_slot_guard_witness :
    (5 ≤ 7 ∧
      FusionKBD.upload_custom envAllOk 7 [] = ⟨[], [], R.panicked⟩ ∧
      FusionKBD.set_custom envAllOk 7 3 = ([], R.panicked)) ∧
    (2 < 5 ∧
      (FusionKBD.upload_custom envAllOk 2 (List.replicate 512 0)).events.head? =
        some (FusionKBD.write_control_kbd (Header.new KIND_CUSTOM_CONFIG 2 0x08 0x00 0x00)) ∧
      (FusionKBD.set_custom envAllOk 2 3).1.head? =
        some (FusionKBD.write_control_kbd (Header.new KIND_PRESET (0x33 + 2) 0 3 0))) :=
  ⟨⟨by omega, (C5_slot_guard envAllOk 7 3 []).1 (by omega)⟩,
   ⟨by omega, (C5_slot_guard envAllOk 2 3 (List.replicate 512 0)).2 (by omega)⟩⟩

/-- When every interrupt transfer succeeds and all `fuel` chunks starting
at index `i` lie within `data`, the chunk loop issues exactly the expected
interrupt transfers in order and returns normally. -/
theorem upload_chunks_ok (env : UsbEnv) (data : List Nat)
    (hintr : ∀ j, ∃ m, env.writeInterrupt j = Except.ok m) :
    ∀ fuel i, (i + fuel) * 64 ≤ data.length →
      (FusionKBD.upload_chunks env data i fuel).events =
        (List.range' i fuel).map
          (fun j => UsbEvent.interruptTransfer 6 ((data.drop (j * 64)).take 64) 0) ∧
      (FusionKBD.upload_chunks env data i fuel).outcome = R.ok () := by
  intro fuel
  induction fuel with
  | zero => intro i _; exact ⟨rfl, rfl⟩
  | succ fuel ih =>
    intro i hbound
    have hin : i * 64 + 64 ≤ data.length := by omega
    obtain ⟨m, hm⟩ := hintr i
    have hrec := ih (i + 1) (by omega)
    simp only [FusionKBD.upload_chunks, hin, if_pos, hm, List.range'_succ, List.map_cons]
    exact ⟨by rw [hrec.1], hrec.2⟩

/-- The chunks of the loop, concatenated, are a contiguous `take` of the
input starting at the loop's first byte offset. -/
theorem upload_chunks_flatten (data : List Nat) :
    ∀ fuel i,
      ((List.range' i fuel).map (fun j => (data.drop (j * 64)).take 64)).flatten =
        (data.drop (i * 64)).take (fuel * 64) := by
  intro fuel
  induction fuel with
  | zero => intro i; rfl
  | succ fuel ih =>
    intro i
    rw [List.range'_succ, List.map_cons, List.flatten_cons, ih (i + 1)]
    have hdrop : (data.drop (i * 64)).drop 64 = data.drop ((i + 1) * 64) := by
      rw [List.drop_drop]
      congr 1
      omega
    have htake : (fuel + 1) * 64 = 64 + fuel * 64 := by ring
    rw [htake, List.take_add, hdrop]

/-- C2: for a valid slot and a 512-byte buffer, `upload_custom` issues the
custom-config header control transfer first (kind `KIND_CUSTOM_CONFIG` =
0x12, mode = slot, length 0x08, brightness 0, color 0), then exactly 8
interrupt transfers to endpoint 6, the i-th carrying bytes
`[64*i, 64*i+64)` of the buffer, each 64 bytes long; their concatenation
is the whole buffer (no overlap, no gap) and the call returns normally. -/
theorem C2_upload_custom_trace (env : UsbEnv) (slot : Nat) (data : List Nat)
    (hslot : slot < 5) (hlen : data.length = 512)
    (hctl : ∃ n, env.writeControl = Except.ok n)
    (hintr : ∀ j, ∃ m, env.writeInterrupt j = Except.ok m) :
    (FusionKBD.upload_custom env slot data).events =
      FusionKBD.write_control_kbd (Header.new KIND_CUSTOM_CONFIG slot 0x08 0x00 0x00) ::
        (List.range 8).map
          (fun j => UsbEvent.interruptTransfer 6 ((data.drop (j * 64)).take 64) 0) ∧
    KIND_CUSTOM_CONFIG = 0x12 ∧
    (∀ j, j < 8 → ((data.drop (j * 64)).take 64).length = 64) ∧
    ((List.range 8).map (fun j => (data.drop (j * 64)).take 64)).flatten = data ∧
    (FusionKBD.upload_custom env slot data).outcome = R.ok () := by
  obtain ⟨n, hn⟩ := hctl
  have hchunks := upload_chunks_ok env data hintr 8 0 (by omega)
  refine ⟨?_, rfl, ?_, ?_, ?_⟩
  · unfold FusionKBD.upload_custom
    simp only [hslot, if_pos, hn]
    rw [List.range_eq_range']
    exact congrArg _ hchunks.1
  · intro j hj
    simp only [List.length_take, List.length_drop]
    omega
  · rw [List.range_eq_range', upload_chunks_flatten data 8 0, Nat.zero_mul,
      List.drop_zero]
    exact List.take_of_length_le (by omega)
  · unfold FusionKBD.upload_custom
    simp only [hslot, if_pos, hn]
    exact hchunks.2

/-- C2 witness: the all-zero 512-byte buffer uploaded to slot 0 in the
all-ok environment. -/
theorem C2_upload_custom_trace_witness :
    (FusionKBD.upload_custom envAllOk 0 (List.replicate 512 0)).events =
      FusionKBD.write_control_kbd (Header.new KIND_CUSTOM_CONFIG 0 0x08 0x00 0x00) ::
        (List.range 8).map
          (fun j => UsbEvent.interruptTransfer 6 (((List.replicate 512 0).drop (j * 64)).take 64) 0) ∧
    ((List.range 8).map (fun j => (((List.replicate 512 0) : List Nat).drop (j * 64)).take 64)).flatten =
      List.replicate 512 0 ∧
    (FusionKBD.upload_custom envAllOk 0 (List.replicate 512 0)).outcome = R.ok () := by
  have h := C2_upload_custom_trace envAllOk 0 (List.replicate 512 0) (by omega)
    (List.length_replicate ..) ⟨8, rfl⟩ (fun _ => ⟨64, rfl⟩)
  exact ⟨h.1, h.2.2.2.1, h.2.2.2.2⟩

/-- Membership in the warning list of the chunk loop: index `j` is warned
exactly when its transfer is performed within the loop's range and
completes with a length other than 64. -/
theorem upload_chunks_warn_mem (env : UsbEnv) (data : List Nat)
    (hintr : ∀ j, ∃ m, env.writeInterrupt j = Except.ok m) :
    ∀ fuel i, (i + fuel) * 64 ≤ data.length →
      ∀ j, (j ∈ (FusionKBD.upload_chunks env data i fuel).warnings ↔
        i ≤ j ∧ j < i + fuel ∧ ∃ m, env.writeInterrupt j = Except.ok m ∧ m ≠ 64) := by
  intro fuel
  induction fuel with
  | zero =>
    intro i _ j
    simp only [FusionKBD.upload_chunks]
    constructor
    · intro h
      exact absurd h (List.not_mem_nil j)
    · intro h
      omega
  | succ fuel ih =>
    intro i hbound j
    have hin : i * 64 + 64 ≤ data.length := by omega
    obtain ⟨m, hm⟩ := hintr i
    have hrec := ih (i + 1) (by omega) j
    simp only [FusionKBD.upload_chunks, hin, if_pos, hm]
    by_cases hm64 : m = 64
    · subst hm64
      rw [if_neg (by omega), List.nil_append, hrec]
      constructor
      · rintro ⟨h1, h2, hex⟩
        exact ⟨by omega, by omega, hex⟩
      · rintro ⟨h1, h2, m', hm', hne⟩
        have hji : j ≠ i := by
          rintro rfl
          rw [hm] at hm'
          cases hm'
          exact hne rfl
        exact ⟨by omega, by omega, m', hm', hne⟩
    · rw [if_pos hm64, List.singleton_append, List.mem_cons, hrec]
      constructor
      · rintro (rfl | ⟨h1, h2, hex⟩)
        · exact ⟨Nat.le_refl j, by omega, m, hm, hm64⟩
        · exact ⟨by omega, by omega, hex⟩
      · rintro ⟨h1, h2, m', hm', hne⟩
        by_cases hji : j = i
        · exact Or.inl hji
        · exact Or.inr ⟨by omega, by omega, m', hm', hne⟩

/-- C8: with a valid slot and a 512-byte buffer, when every interrupt
transfer completes (possibly short), `upload_custom` still issues the
header transfer and all 8 interrupt transfers, returns normally, and the
short-transfer warnings are logged exactly for the chunk indices whose
reported length differs from 64. -/
theorem C8_short_transfer_warns_continues (env : UsbEnv) (slot : Nat)
    (data : List Nat) (hslot : slot < 5) (hlen : data.length = 512)
    (hctl : ∃ n, env.writeControl = Except.ok n)
    (hintr : ∀ j, ∃ m, env.writeInterrupt j = Except.ok m) :
    (FusionKBD.upload_custom env slot data).outcome = R.ok () ∧
    (FusionKBD.upload_custom env slot data).events =
      FusionKBD.write_control_kbd (Header.new KIND_CUSTOM_CONFIG slot 0x08 0x00 0x00) ::
        (List.range 8).map
          (fun j => UsbEvent.interruptTransfer 6 ((data.drop (j * 64)).take 64) 0) ∧
    (∀ j, j ∈ (FusionKBD.upload_custom env slot data).warnings ↔
      j < 8 ∧ ∃ m, env.writeInterrupt j = Except.ok m ∧ m ≠ 64) := by
  obtain ⟨n, hn⟩ := hctl
  have hchunks := upload_chunks_ok env data hintr 8 0 (by omega)
  have hwarn := upload_chunks_warn_mem env data hintr 8 0 (by omega)
  refine ⟨?_, ?_, ?_⟩
  · unfold FusionKBD.upload_custom
    simp only [hslot, if_pos, hn]
    exact hchunks.2
  · unfold FusionKBD.upload_custom
    simp only [hslot, if_pos, hn]
    rw [List.range_eq_range']
    exact congrArg _ hchunks.1
  · intro j
    unfold FusionKBD.upload_custom
    simp only [hslot, if_pos, hn]
    rw [hwarn j]
    constructor
    · rintro ⟨_, h2, hex⟩
      exact ⟨by omega, hex⟩
    · rintro ⟨h1, hex⟩
      exact ⟨by omega, by omega, hex⟩

/-- C8 witness: uploading the all-zero buffer in an environment where
chunk 3 is delivered short (10 bytes) still succeeds and warns on 3. -/
theorem C8_short_transfer_warns_continues_witness :
    (FusionKBD.upload_custom envShort 1 (List.replicate 512 0)).outcome = R.ok () ∧
    3 ∈ (FusionKBD.upload_custom envShort 1 (List.replicate 512 0)).warnings ∧
    0 ∉ (FusionKBD.upload_custom envShort 1 (List.replicate 512 0)).warnings := by
  have h := C8_short_transfer_warns_continues envShort 1 (List.replicate 512 0)
    (by omega) (List.length_replicate ..) ⟨8, rfl⟩
    (fun j => by
      by_cases hj : j = 3
      · exact ⟨10, by rw [hj]; rfl⟩
      · exact ⟨64, by simp [envShort, envAllOk, hj]⟩)
  refine ⟨h.1, ?_, ?_⟩
  · exact (h.2.2 3).mpr ⟨by omega, 10, by rfl, by omega⟩
  · intro hmem
    obtain ⟨-, m, hm, hne⟩ := (h.2.2 0).mp hmem
    have : m = 64 := by
      have h64 : envShort.writeInterrupt 0 = Except.ok 64 := by rfl
      rw [h64] at hm
      cases hm
      rfl
    exact hne this

/-- When the buffer is too short for the chunks the loop still has to
send (and at least one remains), the loop ends in the out-of-bounds-slice
panic. -/
theorem upload_chunks_panic (env : UsbEnv) (data : List Nat)
    (hintr : ∀ j, ∃ m, env.writeInterrupt j = Except.ok m) :
    ∀ fuel i, data.length < (i + fuel) * 64 → 0 < fuel →
      (FusionKBD.upload_chunks env data i fuel).outcome = R.panicked := by
  intro fuel
  induction fuel with
  | zero =>
    intro i _ h0
    omega
  | succ fuel ih =>
    intro i hbound _
    by_cases hin : i * 64 + 64 ≤ data.length
    · have hfuel : 0 < fuel := by omega
      obtain ⟨m, hm⟩ := hintr i
      simp only [FusionKBD.upload_chunks, hin, if_pos, hm]
      exact ih (i + 1) (by omega) hfuel
    · simp [FusionKBD.upload_chunks, hin]

/-- C10: `upload_custom` needs at least 512 bytes of data. With a valid
slot and a successful transport, a buffer of 512 or more bytes is
processed without any out-of-bounds access and the trace only depends on
its first 512 bytes, while a buffer shorter than 512 bytes makes the
operation panic on slicing after the header control transfer has already
been issued. -/
theorem C10_upload_custom_length (env : UsbEnv) (slot : Nat) (data : List Nat)
    (hslot : slot < 5) (hctl : ∃ n, env.writeControl = Except.ok n)
    (hintr : ∀ j, ∃ m, env.writeInterrupt j = Except.ok m) :
    (512 ≤ data.length →
      (FusionKBD.upload_custom env slot data).outcome = R.ok () ∧
      (FusionKBD.upload_custom env slot data).events =
        (FusionKBD.upload_custom env slot (data.take 512)).events) ∧
    (data.length < 512 →
      (FusionKBD.upload_custom env slot data).outcome = R.panicked ∧
      (FusionKBD.upload_custom env slot data).events.head? =
        some (FusionKBD.write_control_kbd
          (Header.new KIND_CUSTOM_CONFIG slot 0x08 0x00 0x00))) := by
  obtain ⟨n, hn⟩ := hctl
  constructor
  · intro h512
    have h1 := upload_chunks_ok env data hintr 8 0 (by omega)
    have h2 := upload_chunks_ok env (data.take 512) hintr 8 0
      (by rw [List.length_take]; omega)
    unfold FusionKBD.upload_custom
    simp only [hslot, if_pos, hn]
    refine ⟨h1.2, ?_⟩
    rw [h1.1, h2.1]
    refine congrArg _ (List.map_congr_left ?_)
    intro j hj
    have hj8 : j < 8 := by
      have := (List.mem_range'_1).mp hj
      omega
    have hchunk : ((data.take 512).drop (j * 64)).take 64 =
        (data.drop (j * 64)).take 64 := by
      rw [List.drop_take, List.take_take]
      have hmin : min 64 (512 - j * 64) = 64 := by omega
      rw [hmin]
    rw [hchunk]
  · intro hlt
    have hp := upload_chunks_panic env data hintr 8 0 (by omega) (by omega)
    unfold FusionKBD.upload_custom
    simp only [hslot, if_pos, hn]
    exact ⟨hp, rfl⟩

/-- C10 witness: a 600-byte buffer is accepted with only its first 512
bytes used, and a 100-byte buffer panics after the header transfer. -/
theorem C10_upload_custom_length_witness :
    ((FusionKBD.upload_custom envAllOk 0 (List.replicate 600 0)).outcome = R.ok () ∧
     (FusionKBD.upload_custom envAllOk 0 (List.replicate 600 0)).events =
       (FusionKBD.upload_custom envAllOk 0 ((List.replicate 600 0).take 512)).events) ∧
    ((FusionKBD.upload_custom envAllOk 0 (List.replicate 100 0)).outcome = R.panicked ∧
     (FusionKBD.upload_custom envAllOk 0 (List.replicate 100 0)).events.head? =
       some (FusionKBD.write_control_kbd
         (Header.new KIND_CUSTOM_CONFIG 0 0x08 0x00 0x00))) :=
  ⟨(C10_upload_custom_length envAllOk 0 (List.replicate 600 0) (by omega)
      ⟨8, rfl⟩ (fun _ => ⟨64, rfl⟩)).1
    (by rw [List.length_replicate]; omega),
   (C10_upload_custom_length envAllOk 0 (List.replicate 100 0) (by omega)
      ⟨8, rfl⟩ (fun _ => ⟨64, rfl⟩)).2
    (by rw [List.length_replicate]; omega)⟩

/-- C6 counterexample: with no matching device present, `FusionKBD::new`
returns the `Access` error kind — not a device-not-found kind — while
issuing no operation; this refutes the claim that the failure carries a
`DeviceNotFound` kind distinct from access-denied. -/
theorem C6_counterexample :
    FusionKBD.new envNoDevice = ([], R.err LibusbError.access) ∧
    LibusbError.access ≠ LibusbError.noDevice := by
  constructor
  · rfl
  · intro h
    cases h

/-- C6 amended: when no device with vid 0x1044 / pid 0x7a39 is present,
`FusionKBD::new` fails with the `Access` error kind (the code prints a
hint about root privileges and deliberately reports `Error::Access`),
issuing no detach, claim, or transfer operation. -/
theorem C6_no_device_error (env : UsbEnv) (h : env.deviceFound = false) :
    FusionKBD.new env = ([], R.err LibusbError.access) := by
  unfold FusionKBD.new
  rw [h]
  rfl

/-- C6 witness: the amended claim evaluated in the no-device environment. -/
theorem C6_no_device_error_witness :
    envNoDevice.deviceFound = false ∧
    FusionKBD.new envNoDevice = ([], R.err LibusbError.access) :=
  ⟨rfl, C6_no_device_error envNoDevice rfl⟩

/-- C7 counterexample: in an environment where claiming interface 0
succeeds and claiming interface 3 fails with `Busy`, `FusionKBD::new`
propagates the error while its event trace contains the successful claim
of interface 0 and no release or driver-reattach operation — the claimed
rollback does not happen. -/
theorem C7_counterexample :
    UsbEvent.claimInterface 0 ∈ (FusionKBD.new envClaim3Fails).1 ∧
    UsbEvent.releaseInterface 0 ∉ (FusionKBD.new envClaim3Fails).1 ∧
    UsbEvent.attachKernelDriver 0 ∉ (FusionKBD.new envClaim3Fails).1 ∧
    UsbEvent.attachKernelDriver 3 ∉ (FusionKBD.new envClaim3Fails).1 ∧
    (FusionKBD.new envClaim3Fails).2 = R.err LibusbError.busy := by
  decide

/-- Every event issued by the claim stage is either inherited from `pre`
or one of the two claim-interface operations. -/
theorem new_claims_events (env : UsbEnv) (pre : List UsbEvent) (ev : UsbEvent) :
    ev ∈ (FusionKBD.new_claims env pre).1 →
      ev ∈ pre ∨ ev = UsbEvent.claimInterface 0 ∨ ev = UsbEvent.claimInterface 3 := by
  unfold FusionKBD.new_claims
  cases h0 : env.claimInterface 0 with
  | error e =>
    simp only [h0, List.mem_append, List.mem_singleton]
    tauto
  | ok u =>
    cases h3 : env.claimInterface 3 with
    | error e =>
      simp only [h0, h3, List.mem_append, List.mem_cons, List.mem_singleton,
        List.not_mem_nil, or_false]
      tauto
    | ok v =>
      simp only [h0, h3, List.mem_append, List.mem_cons, List.mem_singleton,
        List.not_mem_nil, or_false]
      tauto

/-- Every event issued by the interface-3 stage is inherited from `pre`
or is a query, detach, or claim operation. -/
theorem new_iface3_events (env : UsbEnv) (pre : List UsbEvent) (ev : UsbEvent) :
    ev ∈ (FusionKBD.new_iface3 env pre).1 →
      ev ∈ pre ∨ ev = UsbEvent.kernelDriverActiveQuery 3 ∨
      ev = UsbEvent.detachKernelDriver 3 ∨
      ev = UsbEvent.claimInterface 0 ∨ ev = UsbEvent.claimInterface 3 := by
  unfold FusionKBD.new_iface3
  cases h3 : env.kernelDriverActive 3 with
  | error e =>
    simp only [h3, List.mem_append, List.mem_singleton]
    tauto
  | ok b =>
    cases b with
    | true =>
      cases hd : env.detachKernelDriver 3 with
      | error e =>
        simp only [h3, hd, List.mem_append, List.mem_cons, List.mem_singleton,
          List.not_mem_nil, or_false]
        tauto
      | ok u =>
        intro hmem
        rcases new_claims_events env _ ev hmem with hpre | hc
        · rcases List.mem_append.mp hpre with hp | hq
          · tauto
          · simp only [List.mem_cons, List.mem_singleton, List.not_mem_nil,
              or_false] at hq
            tauto
        · tauto
    | false =>
      intro hmem
      rcases new_claims_events env _ ev hmem with hpre | hc
      · rcases List.mem_append.mp hpre with hp | hq
        · tauto
        · simp only [List.mem_singleton] at hq
          tauto
      · tauto

/-- C7 amended: `FusionKBD::new` performs no rollback at all. On a
failure partway through construction the error is propagated as-is:
the constructor never issues a release-interface or attach-kernel-driver
operation on any interface (cleanup is left to the `Drop` implementation,
which only runs for successfully constructed sessions). -/
theorem C7_no_rollback_in_new (env : UsbEnv) (i : Nat) :
    UsbEvent.releaseInterface i ∉ (FusionKBD.new env).1 ∧
    UsbEvent.attachKernelDriver i ∉ (FusionKBD.new env).1 := by
  have hmain : ∀ ev, ev ∈ (FusionKBD.new env).1 →
      ev = UsbEvent.kernelDriverActiveQuery 0 ∨ ev = UsbEvent.detachKernelDriver 0 ∨
      ev = UsbEvent.kernelDriverActiveQuery 3 ∨ ev = UsbEvent.detachKernelDriver 3 ∨
      ev = UsbEvent.claimInterface 0 ∨ ev = UsbEvent.claimInterface 3 := by
    intro ev
    unfold FusionKBD.new
    cases hf : env.deviceFound with
    | false =>
      intro hmem
      simp at hmem
    | true =>
      simp only [if_pos]
      cases h0 : env.kernelDriverActive 0 with
      | error e =>
        simp only [List.mem_singleton]
        tauto
      | ok b =>
        cases b with
        | true =>
          cases hd : env.detachKernelDriver 0 with
          | error e =>
            simp only [List.mem_cons, List.mem_singleton, List.not_mem_nil, or_false]
            tauto
          | ok u =>
            intro hmem
            rcases new_iface3_events env _ ev hmem with hpre | hc
            · simp only [List.mem_cons, List.mem_singleton, List.not_mem_nil,
                or_false] at hpre
              tauto
            · tauto
        | false =>
          intro hmem
          rcases new_iface3_events env _ ev hmem with hpre | hc
          · simp only [List.mem_singleton] at hpre
            tauto
          · tauto
  constructor
  · intro hmem
    rcases hmain _ hmem with h | h | h | h | h | h <;> cases h
  · intro hmem
    rcases hmain _ hmem with h | h | h | h | h | h <;> cases h

/-- The claim stage never panics: claim failures propagate as error
values via the `?` operator. -/
theorem new_claims_no_panic (env : UsbEnv) (pre : List UsbEvent) :
    (FusionKBD.new_claims env pre).2 ≠ R.panicked := by
  unfold FusionKBD.new_claims
  cases h0 : env.claimInterface 0 with
  | error e => simp
  | ok u =>
    cases h3 : env.claimInterface 3 with
    | error e => simp
    | ok v => simp

/-- The interface-3 stage panics exactly when its kernel-driver-active
query returns a transport error (the `.unwrap()`). -/
theorem new_iface3_panic_iff (env : UsbEnv) (pre : List UsbEvent) :
    (FusionKBD.new_iface3 env pre).2 = R.panicked ↔
      ∃ e, env.kernelDriverActive 3 = Except.error e := by
  unfold FusionKBD.new_iface3
  cases h3 : env.kernelDriverActive 3 with
  | error e =>
    simp [h3]
  | ok b =>
    have hright : ¬ ∃ e, Except.ok b = Except.error (ε := LibusbError) e := by
      rintro ⟨e, he⟩
      cases he
    cases b with
    | true =>
      cases hd : env.detachKernelDriver 3 with
      | error e =>
        simp only [h3]
        exact iff_of_false (by simp) hright
      | ok u =>
        simp only [h3]
        exact iff_of_false (new_claims_no_panic env _) hright
    | false =>
      simp only [h3]
      exact iff_of_false (new_claims_no_panic env _) hright

/-- C9: `FusionKBD::new` ends in a panic exactly when a performed
kernel-driver-active query returns a transport error (the `.unwrap()`
aborts instead of returning an error value): either the interface-0 query
fails, or the interface-0 step completes (driver inactive, or active and
detached successfully) and the interface-3 query fails. Consequently,
whenever `new` returns a value — `Ok` or `Err` — every
kernel-driver-active query it performed succeeded. -/
theorem C9_new_panic_iff (env : UsbEnv) :
    (FusionKBD.new env).2 = R.panicked ↔
      env.deviceFound = true ∧
      ((∃ e, env.kernelDriverActive 0 = Except.error e) ∨
       ((env.kernelDriverActive 0 = Except.ok false ∨
         (env.kernelDriverActive 0 = Except.ok true ∧
          env.detachKernelDriver 0 = Except.ok ())) ∧
        ∃ e, env.kernelDriverActive 3 = Except.error e)) := by
  unfold FusionKBD.new
  cases hf : env.deviceFound with
  | false =>
    simp only [Bool.false_eq_true, if_false]
    exact iff_of_false (by simp) (by simp)
  | true =>
    simp only [if_true, true_and]
    cases h0 : env.kernelDriverActive 0 with
    | error e =>
      exact iff_of_true rfl (Or.inl ⟨e, rfl⟩)
    | ok b =>
      have hnoerr : ¬ ∃ e, Except.ok b = Except.error (ε := LibusbError) e := by
        rintro ⟨e, he⟩
        cases he
      cases b with
      | true =>
        cases hd : env.detachKernelDriver 0 with
        | error e =>
          refine iff_of_false (by simp) ?_
          rintro (he | ⟨hstep, he3⟩)
          · exact hnoerr he
          · rcases hstep with h | ⟨-, hdet⟩
            · cases h
            · cases hdet
        | ok u =>
          rw [new_iface3_panic_iff]
          constructor
          · intro he3
            exact Or.inr ⟨Or.inr ⟨rfl, by cases u; rfl⟩, he3⟩
          · rintro (he | ⟨-, he3⟩)
            · exact absurd he hnoerr
            · exact he3
      | false =>
        rw [new_iface3_panic_iff]
        constructor
        · intro he3
          exact Or.inr ⟨Or.inl rfl, he3⟩
        · rintro (he | ⟨-, he3⟩)
          · exact absurd he hnoerr
          · exact he3
